import Mathlib

/-!
Shallow embedding of the Zoey WebSocket client (src/zoey/*.py) and proofs
about the claims of its specification.  Bytes are modelled as `List Nat`
(each element < 256 where produced by the code), Python `None` as `Option`,
and exceptions as `Option`/explicit error values.
-/

namespace Zoey

/-! ## Frame codec — src/zoey/framing.py -/

/-- The members of the `FrameOpcode` enum (framing.py lines 19-26).
`RESERVED` is a genuine member whose `value` is Python `None`. -/
inductive FrameOpcode where
  | continuation
  | text
  | binary
  | close
  | ping
  | pong
  | reserved
deriving DecidableEq, Repr

/-- `FrameOpcode.<member>.value`: the numeric value of each member;
`RESERVED.value` is Python `None`, modelled as `none`. -/
def FrameOpcode.value : FrameOpcode → Option Nat
  | .continuation => some 0
  | .text => some 1
  | .binary => some 2
  | .close => some 8
  | .ping => some 9
  | .pong => some 10
  | .reserved => none

/-- Iteration order of the enum's members, as `for enum in cls` yields them. -/
def FrameOpcode.members : List FrameOpcode :=
  [.continuation, .text, .binary, .close, .ping, .pong, .reserved]

/-- `FrameOpcode.from_value` (framing.py 28-32): the first member whose value
equals the argument; falling off the loop returns Python `None` (here `none`).
`RESERVED.value` is `None` and never equals an `int`, so it never matches. -/
def FrameOpcode.from_value (v : Nat) : Option FrameOpcode :=
  FrameOpcode.members.find? (fun m => m.value == some v)

/-- `ExtensionRsvs` (framing.py line 8): the three reserved bits of a frame.
The source stores them as ints 0/1 (built with `1 if r else 0` or
`map(int, ...)`); they are modelled as `Bool` and converted to bits where
the source uses them arithmetically. -/
structure ExtensionRsvs where
  rsv1 : Bool
  rsv2 : Bool
  rsv3 : Bool
deriving DecidableEq, Repr

/-- The bit a Python bool/0-1 int contributes to a shift expression. -/
def bit (b : Bool) : Nat := if b then 1 else 0

/-- `Frame` (framing.py 35-42).  `opcode` is an `Option` because
`FrameOpcode.from_value` can return Python `None` for an unknown opcode, and
`Frame.load` stores that result unchecked.  `mask` is `None` or a 4-byte key. -/
structure Frame where
  final : Bool
  rsvs : ExtensionRsvs
  opcode : Option FrameOpcode
  payload : List Nat
  mask : Option (List Nat)
deriving DecidableEq, Repr

/-- `Frame.apply_mask` (framing.py 90-95): XOR each payload byte with
`mask[i % 4]`.  The mask produced by the code is always 4 bytes
(`os.urandom(4)` / `stream.read(4)`), so the `getD` default is never hit. -/
def Frame.apply_mask (mask content : List Nat) : List Nat :=
  content.enum.map (fun p => p.2 ^^^ mask.getD (p.1 % 4) 0)

/-- Big-endian encoding of `v` on `nbytes` bytes, as `struct.pack` writes
`!B` / `!H` / `!Q` (callers guard the range as the source does). -/
def packBE (nbytes v : Nat) : List Nat :=
  (List.range nbytes).map (fun i => v / 256 ^ (nbytes - 1 - i) % 256)

/-- The value of a big-endian byte string, as `struct.unpack` reads it. -/
def beVal (bs : List Nat) : Nat := bs.foldl (fun acc b => acc * 256 + b) 0

/-- `Frame.build` (framing.py 44-66).  Returns `none` where Python raises:
`self.opcode.value` on a `None` opcode (AttributeError) or on `RESERVED`
(whose value is not an int, so `pack("!B", ...)` fails), and `pack("!Q")`
on a length that does not fit 64 bits. -/
def Frame.build (f : Frame) : Option (List Nat) :=
  match f.opcode.bind FrameOpcode.value with
  | none => none
  | some opv =>
    let byte0 := bit f.final <<< 7 ||| bit f.rsvs.rsv1 <<< 6 |||
      bit f.rsvs.rsv2 <<< 5 ||| bit f.rsvs.rsv3 <<< 4 ||| opv
    let pl := f.payload.length
    let maskBit := if f.mask.isSome then 128 else 0
    let lenHeader : Option (List Nat) :=
      if pl ≤ 125 then some [pl ||| maskBit]
      else if pl ≤ 0xFFFF then some ([126 ||| maskBit] ++ packBE 2 pl)
      else if pl < 2 ^ 64 then some ([127 ||| maskBit] ++ packBE 8 pl)
      else none
    match lenHeader with
    | none => none
    | some lh =>
      match f.mask with
      | some m => some (byte0 :: lh ++ m ++ Frame.apply_mask m f.payload)
      | none => some (byte0 :: lh ++ f.payload)

/-- `unpack_from("!B", stream)` (framing.py 11-16): one byte, or
`struct.error` (modelled `none`) when the stream has none left. -/
def unpackFromB (s : List Nat) : Option (Nat × List Nat) :=
  match s with
  | [] => none
  | b :: r => some (b, r)

/-- `unpack_from("!Q", stream)`: eight big-endian bytes, or `struct.error`. -/
def unpackFromQ (s : List Nat) : Option (Nat × List Nat) :=
  if s.length < 8 then none else some (beVal (s.take 8), s.drop 8)

/-- `Frame.load` (framing.py 68-88), reading from a byte stream modelled as
the list of bytes it will yield; returns the frame and the unread rest.
Note the source reads the extended 16-bit length with `unpack_from("!B", ...)`
— a single byte — at line 79, while `build` wrote it with `pack("!H", ...)`.
The payload reads use `stream.read(n)`, which returns at most `n` bytes
without error, hence `take`/`drop`. -/
def Frame.load (s : List Nat) : Option (Frame × List Nat) :=
  match unpackFromB s with
  | none => none
  | some (b0, s1) =>
    let final := b0 &&& 128 != 0
    let rsvs : ExtensionRsvs := ⟨b0 &&& 64 != 0, b0 &&& 32 != 0, b0 &&& 16 != 0⟩
    let opcode := FrameOpcode.from_value (b0 &&& 0xF)
    match unpackFromB s1 with
    | none => none
    | some (b1, s2) =>
      let hasMask := b1 &&& 0x80 != 0
      let pl0 := b1 &&& 0x7F
      let lenRead : Option (Nat × List Nat) :=
        if pl0 == 126 then unpackFromB s2
        else if pl0 == 127 then unpackFromQ s2
        else some (pl0, s2)
      match lenRead with
      | none => none
      | some (pl, s3) =>
        if hasMask then
          let mask := s3.take 4
          let rest := s3.drop 4
          some (⟨final, rsvs, opcode, Frame.apply_mask mask (rest.take pl), some mask⟩,
            rest.drop pl)
        else
          some (⟨final, rsvs, opcode, s3.take pl, none⟩, s3.drop pl)

/-! ## Close-frame payload parsing — src/zoey/framing.py 154-167 -/

/-- `struct.unpack("!H", bs)`: requires exactly two bytes and returns a
1-tuple holding the big-endian 16-bit value, modelled as a one-element
list; `none` is `struct.error`. -/
def unpackH (bs : List Nat) : Option (List Nat) :=
  match bs with
  | [a, b] => some [a * 256 + b]
  | _ => none

/-- `bytes.decode("utf8")` (strict): the decoded code points, or `none`
where Python raises `UnicodeDecodeError` (stray continuation bytes,
overlong forms, surrogates, values above U+10FFFF, truncated sequences). -/
def utf8Decode : List Nat → Option (List Nat)
  | [] => some []
  | b :: rest =>
    if b < 0x80 then (utf8Decode rest).map (b :: ·)
    else if b < 0xC2 then none
    else if b < 0xE0 then
      match rest with
      | b2 :: r2 =>
        if 0x80 ≤ b2 && b2 < 0xC0 then
          (utf8Decode r2).map (((b - 0xC0) * 64 + (b2 - 0x80)) :: ·)
        else none
      | [] => none
    else if b < 0xF0 then
      match rest with
      | b2 :: b3 :: r2 =>
        let lo2 := if b == 0xE0 then 0xA0 else 0x80
        let hi2 := if b == 0xED then 0xA0 else 0xC0
        if lo2 ≤ b2 && b2 < hi2 && 0x80 ≤ b3 && b3 < 0xC0 then
          (utf8Decode r2).map
            (((b - 0xE0) * 4096 + (b2 - 0x80) * 64 + (b3 - 0x80)) :: ·)
        else none
      | _ => none
    else if b < 0xF5 then
      match rest with
      | b2 :: b3 :: b4 :: r2 =>
        let lo2 := if b == 0xF0 then 0x90 else 0x80
        let hi2 := if b == 0xF4 then 0x90 else 0xC0
        if lo2 ≤ b2 && b2 < hi2 && 0x80 ≤ b3 && b3 < 0xC0 && 0x80 ≤ b4 && b4 < 0xC0 then
          (utf8Decode r2).map
            (((b - 0xF0) * 262144 + (b2 - 0x80) * 4096 + (b3 - 0x80) * 64 + (b4 - 0x80)) :: ·)
        else none
      | _ => none
    else none

/-- The fields `Close.__init__`/`Close.load` leave on a received Close
control frame.  `code` holds the 1-tuple `struct.unpack` returns (framing.py
165/167 assign the tuple itself, not its element); `reason` holds the code
points of the decoded string. -/
structure Close where
  code : Option (List Nat)
  reason : Option (List Nat)
deriving DecidableEq, Repr

/-- `Close.load` (framing.py 163-167) applied to the frame payload
(`raw_data`).  With more than two bytes it sets `code` from
`raw_data[:2]` and decodes the reason **also from `raw_data[:2]`**; with
exactly two bytes only `code`; otherwise neither.  `none` is an escaping
`UnicodeDecodeError`. -/
def Close.load (rawData : List Nat) : Option Close :=
  if rawData.length > 2 then
    match unpackH (rawData.take 2), utf8Decode (rawData.take 2) with
    | some t, some cps => some ⟨some t, some cps⟩
    | _, _ => none
  else if rawData.length == 2 then
    (unpackH rawData).map (fun t => ⟨some t, none⟩)
  else some ⟨none, none⟩

/-! ## Extensions and the fragmentation assembler — src/zoey/chain.py -/

/-- The per-extension data `WSConstructor.verify` consults: the class
attributes `RSV1`, `RSV2`, `RSV3` (chain.py 19-21).  `NAME`/`NEGOTIATE` and
the callbacks play no part in the verified claims. -/
structure Extension where
  RSV1 : Bool
  RSV2 : Bool
  RSV3 : Bool
deriving DecidableEq, Repr

/-- The lookup `ChainMap(*[{"R1": r.RSV1, ...} for r in extensions]).get(k)`
(chain.py 76): every per-extension dict carries all three keys, so a
`ChainMap` lookup returns the FIRST extension's value; with no extensions
`.get` returns Python `None`, which is falsy where `verify` tests it. -/
def usedRsvGet (exts : List Extension) (sel : Extension → Bool) : Bool :=
  match exts with
  | [] => false
  | e :: _ => sel e

/-- The test `frame.opcode not in FrameOpcode` (chain.py 74) under CPython's
enum containment: a member is contained, and Python `None` — what
`FrameOpcode.from_value` yields for an unknown opcode — equals `RESERVED`'s
value (`None`), so it too is contained (value-containment semantics,
CPython ≥ 3.12; earlier CPython raises `TypeError` on this line instead of
rejecting the frame).  Under either semantics the test never returns the
"Unknown opcode used." rejection for a frame `Frame.load` produced. -/
def pyOpcodeContains (x : Option FrameOpcode) : Bool :=
  match x with
  | some _ => true
  | none => FrameOpcode.members.any (fun m => m.value == none)

/-- `WSConstructor.verify` (chain.py 60-83): `(good_frame, reason)`.
`self.last_frame` is `None` before the first accepted frame; a `Frame`
object is always truthy. -/
def verify (exts : List Extension) (lastFrame : Option Frame) (f : Frame) :
    Bool × Option String :=
  let cont := f.opcode == some FrameOpcode.continuation
  let seqCheck : Option (Bool × Option String) :=
    match lastFrame with
    | some lf =>
      if cont && (lf.opcode == some FrameOpcode.ping ||
          lf.opcode == some FrameOpcode.pong || lf.opcode == some FrameOpcode.close)
      then some (false, some "Ping, Pong, or Close frames cannot be fragmented.")
      else if cont && lf.final then some (false, some "Sent continuation after final frame.")
      else none
    | none =>
      if cont then some (false, some "Sent continuation without initial frame.")
      else none
  match seqCheck with
  | some r => r
  | none =>
    if !(pyOpcodeContains f.opcode) then (false, some "Unknown opcode used.")
    else if !(usedRsvGet exts (·.RSV1)) && f.rsvs.rsv1 then
      (false, some "Used frame-rsv1 without proper extension")
    else if !(usedRsvGet exts (·.RSV2)) && f.rsvs.rsv2 then
      (false, some "Used frame-rsv2 without proper extension")
    else if !(usedRsvGet exts (·.RSV3)) && f.rsvs.rsv3 then
      (false, some "Used frame-rsv3 without proper extension")
    else (true, none)

/-- `Message.__init__` (framing.py 98-104): `data_type` is `str` exactly when
the first frame of the chain is a Text frame (here `isText`), and `data` is
the concatenation of the chain's payloads.  The UTF-8 decode of a Text
message's bytes to `str` keeps the same bytes and is not modelled further;
no claim inspects it.  The chain is never empty where the source builds a
Message (`chain[0]` would raise); `isText` defaults to `false` on `[]`. -/
structure Message where
  isText : Bool
  data : List Nat
deriving DecidableEq, Repr

/-- Construction of `Message` from the pending frame chain. -/
def Message.make (chain : List Frame) : Message :=
  { isText := match chain.head? with
      | some c => c.opcode == some FrameOpcode.text
      | none => false,
    data := chain.foldr (fun f acc => f.payload ++ acc) [] }

/-- One call `recv_frame` makes on the owning client or the registered
extensions.  `message`/`ping`/`pong`/`closeEvt` each stand for the pair
`self.client.trigger("on_...", x)` (every extension's callback, in
registration order) followed by the client's own `on_...` callback;
`closeCall code reason` is `self.client.close(code, reason)`. -/
inductive WSEvent where
  | message (msg : Message)
  | ping (payload : List Nat)
  | pong (payload : List Nat)
  | closeEvt (c : Close)
  | closeCall (code : Nat) (reason : Option String)
deriving DecidableEq, Repr

/-- The mutable state of `WSConstructor` (chain.py 55-58): the pending
fragment buffer `frame_setup` and the last accepted frame. -/
structure WSConstructor where
  frame_setup : List Frame
  last_frame : Option Frame
deriving DecidableEq, Repr

/-- `WSConstructor.recv_frame` (chain.py 85-107): the state after the frame
and the calls made, in order.  On a verify failure it returns
`client.close(1002, reason)` at once, leaving the state untouched.  Note the
Text/Binary membership test does NOT include `CONTINUATION`, so an accepted
Continuation frame falls through to the final `else` and is handed to
`Close(frame)`; `frame_setup` is never cleared.  `none` models the
`UnicodeDecodeError` that `Close(frame)` can raise out of `recv_frame`. -/
def WSConstructor.recv_frame (exts : List Extension) (c : WSConstructor) (f : Frame) :
    Option (WSConstructor × List WSEvent) :=
  match verify exts c.last_frame f with
  | (false, reason) => some (c, [WSEvent.closeCall 1002 reason])
  | (true, _) =>
    if f.opcode == some FrameOpcode.text || f.opcode == some FrameOpcode.binary then
      let setup := c.frame_setup ++ [f]
      let events := if f.final then [WSEvent.message (Message.make setup)] else []
      some ({ frame_setup := setup, last_frame := some f }, events)
    else if f.opcode == some FrameOpcode.ping then
      some ({ c with last_frame := some f }, [WSEvent.ping f.payload])
    else if f.opcode == some FrameOpcode.pong then
      some ({ c with last_frame := some f }, [WSEvent.pong f.payload])
    else
      match Close.load f.payload with
      | none => none
      | some cl => some ({ c with last_frame := some f }, [WSEvent.closeEvt cl])

/-! ## Handshake — src/zoey/handshake.py -/

/-- The bytes of an ASCII string (`str.encode()`): every string the
handshake hashes or compares is ASCII, where UTF-8 bytes equal the code
points. -/
def strToBytes (s : String) : List Nat := s.data.map Char.toNat

/-- Truncation to a 32-bit word. -/
def w32 (x : Nat) : Nat := x % 2 ^ 32

/-- 32-bit left rotation by `n` (0 < n < 32 at every use). -/
def rotl32 (n x : Nat) : Nat := ((x <<< n) ||| (x >>> (32 - n))) % 2 ^ 32

/-- SHA-1 padding: `0x80`, zeros to 56 mod 64, then the 64-bit big-endian
bit length. -/
def sha1Pad (msg : List Nat) : List Nat :=
  let l := msg.length
  msg ++ [0x80] ++ List.replicate ((55 + 64 - l % 64) % 64) 0 ++ packBE 8 (8 * l)

/-- Big-endian 32-bit words of a byte list (the 16 words of a block). -/
def bytesToWords : List Nat → List Nat
  | a :: b :: c :: d :: rest =>
    (((a * 256 + b) * 256 + c) * 256 + d) :: bytesToWords rest
  | _ => []

/-- Extend the 16 block words to 80: `k` more words, each the 1-rotation of
the XOR of the words 3, 8, 14 and 16 places back. -/
def sha1Extend (ws : List Nat) : Nat → List Nat
  | 0 => ws
  | k + 1 =>
    let n := ws.length
    sha1Extend (ws ++ [rotl32 1 (ws.getD (n - 3) 0 ^^^ ws.getD (n - 8) 0 ^^^
      ws.getD (n - 14) 0 ^^^ ws.getD (n - 16) 0)]) k

/-- The 80 SHA-1 rounds over the extended words; `k` rounds remain, so the
current round index is `80 - k`. -/
def sha1Rounds (ws : List Nat) : Nat → Nat × Nat × Nat × Nat × Nat → Nat × Nat × Nat × Nat × Nat
  | 0, st => st
  | k + 1, (a, b, c, d, e) =>
    let i := 80 - (k + 1)
    let f := if i < 20 then (b &&& c) ||| ((b ^^^ 0xFFFFFFFF) &&& d)
      else if i < 40 then b ^^^ c ^^^ d
      else if i < 60 then (b &&& c) ||| (b &&& d) ||| (c &&& d)
      else b ^^^ c ^^^ d
    let kc := if i < 20 then 0x5A827999 else if i < 40 then 0x6ED9EBA1
      else if i < 60 then 0x8F1BBCDC else 0xCA62C1D6
    sha1Rounds ws k (w32 (rotl32 5 a + f + e + kc + ws.getD i 0), a, rotl32 30 b, c, d)

/-- One SHA-1 block step: extend the words, run the rounds, add into the
chaining state. -/
def sha1Block : Nat × Nat × Nat × Nat × Nat → List Nat → Nat × Nat × Nat × Nat × Nat
  | (h0, h1, h2, h3, h4), block =>
    match sha1Rounds (sha1Extend (bytesToWords block) 64) 80 (h0, h1, h2, h3, h4) with
    | (a, b, c, d, e) => (w32 (h0 + a), w32 (h1 + b), w32 (h2 + c), w32 (h3 + d), w32 (h4 + e))

/-- Fold `sha1Block` over the 64-byte chunks; the fuel is the block count. -/
def sha1Chunks : Nat → Nat × Nat × Nat × Nat × Nat → List Nat → Nat × Nat × Nat × Nat × Nat
  | 0, h, _ => h
  | k + 1, h, bs => sha1Chunks k (sha1Block h (bs.take 64)) (bs.drop 64)

/-- `hashlib.sha1(...).digest()`: the 20 digest bytes of a byte string. -/
def sha1 (msg : List Nat) : List Nat :=
  let padded := sha1Pad msg
  match sha1Chunks (padded.length / 64)
      (0x67452301, 0xEFCDAB89, 0x98BADCFE, 0x10325476, 0xC3D2E1F0) padded with
  | (h0, h1, h2, h3, h4) =>
    packBE 4 h0 ++ packBE 4 h1 ++ packBE 4 h2 ++ packBE 4 h3 ++ packBE 4 h4

/-- The base64 alphabet. -/
def b64Table : List Char :=
  "ABCDEFGHIJKLMNOPQRSTUVWXYZabcdefghijklmnopqrstuvwxyz0123456789+/".data

/-- One base64 character (indices at every use are below 64). -/
def b64Char (i : Nat) : Char := b64Table.getD i '='

/-- `base64.b64encode`: three bytes to four characters, with `=` padding. -/
def b64encode : List Nat → List Char
  | a :: b :: c :: rest =>
    let v := a * 65536 + b * 256 + c
    b64Char (v / 262144) :: b64Char (v / 4096 % 64) :: b64Char (v / 64 % 64) ::
      b64Char (v % 64) :: b64encode rest
  | [a, b] =>
    let v := a * 65536 + b * 256
    [b64Char (v / 262144), b64Char (v / 4096 % 64), b64Char (v / 64 % 64), '=']
  | [a] =>
    let v := a * 65536
    [b64Char (v / 262144), b64Char (v / 4096 % 64), '=', '=']
  | [] => []

/-- `base64.b64encode(...).decode()` as a string. -/
def b64encodeStr (bs : List Nat) : String := String.mk (b64encode bs)

/-- `WebsocketUpgrade.WS_GUID` (handshake.py 30). -/
def WS_GUID : List Nat := strToBytes "258EAFA5-E914-47DA-95CA-C5AB0DC85B11"

/-- `WebsocketUpgrade.expecting_key` (handshake.py 51-55) as a function of
the connection's base64 key string: base64 of the SHA-1 of the key's bytes
followed by the GUID. -/
def WebsocketUpgrade.expecting_key (key : String) : String :=
  b64encodeStr (sha1 (strToBytes key ++ WS_GUID))

/-- `str.lower()` on the ASCII strings the handshake compares. -/
def pyLowerChar (c : Char) : Char :=
  if 'A' ≤ c && c ≤ 'Z' then Char.ofNat (c.toNat + 32) else c

/-- `str.lower()` of an ASCII string. -/
def pyLower (s : String) : String := String.mk (s.data.map pyLowerChar)

/-- Uppercasing of an ASCII letter. -/
def pyUpperChar (c : Char) : Char :=
  if 'a' ≤ c && c ≤ 'z' then Char.ofNat (c.toNat - 32) else c

/-- An ASCII letter (the cased characters of the strings involved). -/
def isAsciiAlpha (c : Char) : Bool :=
  ('A' ≤ c && c ≤ 'Z') || ('a' ≤ c && c ≤ 'z')

/-- `str.title()` over ASCII: a letter is uppercased when the previous
character is not a letter, lowercased otherwise; other characters pass
through and reset the word boundary. -/
def pyTitleAux : Bool → List Char → List Char
  | _, [] => []
  | prevAlpha, c :: rest =>
    if isAsciiAlpha c then
      (if prevAlpha then pyLowerChar c else pyUpperChar c) :: pyTitleAux true rest
    else c :: pyTitleAux false rest

/-- `str.title()` of an ASCII string. -/
def pyTitle (s : String) : String := String.mk (pyTitleAux false s.data)

/-- Lookup in the server response's header mapping.  The HTTP response
reader is an external collaborator (spec §6): it yields a case-insensitive
mapping from header names to values, modelled as an association list probed
case-insensitively; an absent key (Python `KeyError`) is `none`. -/
def headerGet (headers : List (String × String)) (k : String) : Option String :=
  (headers.find? (fun p => pyLower p.1 == pyLower k)).map (·.2)

/-- `WebsocketUpgrade.confirm` (handshake.py 62-69) as a function of the
connection's key and the response headers: the three assertions in order,
with `AssertionError`/`KeyError` caught and turned into `False`. -/
def WebsocketUpgrade.confirm (key : String) (headers : List (String × String)) : Bool :=
  match headerGet headers "Upgrade" with
  | none => false
  | some u =>
    if pyLower u != "websocket" then false
    else
      match headerGet headers "Connection" with
      | none => false
      | some c =>
        if pyTitle c != "Upgrade" then false
        else
          match headerGet headers "Sec-Websocket-Accept" with
          | none => false
          | some acc => acc == WebsocketUpgrade.expecting_key key

/-! ## Connection state machine — src/zoey/client.py and src/zoey/utils.py -/

/-- `ConnectionStatus` (utils.py 4-8). -/
inductive ConnectionStatus where
  | CLOSED
  | CONNECTING
  | CONNECTED
  | CLOSING
deriving DecidableEq, Repr

/-- The truth value Python gives a `ConnectionStatus` member used as a
condition: an `Enum` member defines neither `__bool__` nor `__len__`, so it
is always truthy.  `Client.close` (client.py 78-86) tests the members
themselves — `if ConnectionStatus.CONNECTED:` — not a comparison with
`self.status`. -/
def pyTruthy (_s : ConnectionStatus) : Bool := true

/-- The exceptions `Client.close`/`Client.connect` can raise
(exceptions.py). -/
inductive ClientError where
  | alreadyClosed
  | handshakeFail
deriving DecidableEq, Repr

/-- The outward-visible actions of the client state machine, in call order.
`sendControlClose` is `send_control(Close, ...)`: the before-control-frame
hooks, the built Close frame (carrying the given code/reason) and the
transport write; `sockClose` is `self.socket.close()`; `sockConnect` and
`sendUpgrade` are the transport connect and the handshake request write;
`spawnReader` spawns the read loop; `onConnection` is the pair
`trigger("on_connection")` / `self.on_connection()`. -/
inductive ClientEvent where
  | sendControlClose (code : Nat) (reason : Option String)
  | sockClose
  | sockConnect
  | sendUpgrade
  | spawnReader
  | onConnection
deriving DecidableEq, Repr

/-- `Client.close` (client.py 77-86): the status after the call, the actions
taken and the exception raised, from the status at entry.  The branches test
the truthiness of the enum members themselves, as the source writes them. -/
def Client.close (status : ConnectionStatus) (code : Nat) (reason : Option String) :
    ConnectionStatus × List ClientEvent × Option ClientError :=
  if pyTruthy ConnectionStatus.CONNECTED then
    (ConnectionStatus.CLOSING, [ClientEvent.sendControlClose code reason], none)
  else if pyTruthy ConnectionStatus.CONNECTING then
    (status, [ClientEvent.sockClose], none)
  else if pyTruthy ConnectionStatus.CLOSING then
    (status, [ClientEvent.sockClose], none)
  else
    (status, [], some ClientError.alreadyClosed)

/-- `Client.connect` (client.py 88-104) as a function of the connection's
handshake key and the server's response (status code and headers); the
socket work, request build and response read are transport effects.  It
first sets `self.status = CONNECTING`; on a non-101 status or a failed
`confirm` it calls `self.close()` (default code 1000) and raises
`HandshakeFail` — the status and actions at the moment of the raise are
returned with the error.  On success the status becomes `CONNECTED`, the
read loop is spawned and the on-connection callbacks fire. -/
def Client.connect (key : String) (respCode : Nat) (headers : List (String × String)) :
    ConnectionStatus × List ClientEvent × Option ClientError :=
  let evs := [ClientEvent.sockConnect, ClientEvent.sendUpgrade]
  if respCode != 101 then
    match Client.close ConnectionStatus.CONNECTING 1000 none with
    | (st2, ev2, none) => (st2, evs ++ ev2, some ClientError.handshakeFail)
    | (st2, ev2, some e) => (st2, evs ++ ev2, some e)
  else if !(WebsocketUpgrade.confirm key headers) then
    match Client.close ConnectionStatus.CONNECTING 1000 none with
    | (st2, ev2, none) => (st2, evs ++ ev2, some ClientError.handshakeFail)
    | (st2, ev2, some e) => (st2, evs ++ ev2, some e)
  else
    (ConnectionStatus.CONNECTED,
      evs ++ [ClientEvent.spawnReader, ClientEvent.onConnection], none)

end Zoey

namespace Zoey

set_option maxRecDepth 8000

/-- The frame of C1's failing input: final Text frame, no reserved bits,
no mask, payload of 126 zero bytes. -/
def c1Frame : Frame :=
  ⟨true, ⟨false, false, false⟩, some FrameOpcode.text, List.replicate 126 0, none⟩

/-- C1: the claim says decoding the bytes produced by encoding any valid
frame reproduces its fields, in particular at payload length 126.  It does
not: `Frame.build` encodes length 126 as `126` followed by the two-byte
big-endian length `[0, 126]`, but `Frame.load` reads the extended length
with a one-byte read, takes `0` as the payload length and returns an empty
payload. -/
theorem frame_roundtrip_fails_at_length_126 :
    Frame.build c1Frame = some ([129, 126, 0, 126] ++ List.replicate 126 0) ∧
    (Frame.load ([129, 126, 0, 126] ++ List.replicate 126 0)).map
        (fun p => (p.1.final, p.1.rsvs, p.1.opcode, p.1.payload))
      = some (true, ⟨false, false, false⟩, some FrameOpcode.text, ([] : List Nat)) ∧
    c1Frame.payload ≠ [] := by
  refine ⟨by decide, by decide, by decide⟩

/-- All-clear reserved bits, shared by several concrete frames below. -/
def rsvs0 : ExtensionRsvs := ⟨false, false, false⟩

/-- C2's first frame: Text, non-final, payload "abc". -/
def c2f1 : Frame := ⟨false, rsvs0, some FrameOpcode.text, [97, 98, 99], none⟩

/-- C2's second frame: Continuation, non-final, payload "de". -/
def c2f2 : Frame := ⟨false, rsvs0, some FrameOpcode.continuation, [100, 101], none⟩

/-- C2's third frame: Continuation, final, payload "f". -/
def c2f3 : Frame := ⟨true, rsvs0, some FrameOpcode.continuation, [102], none⟩

/-- C2: the claim says the assembler appends all three frames of a
fragmented Text message to the pending buffer, dispatches one Text Message
holding the concatenated payload when the final Continuation arrives, and
clears the buffer.  Running `recv_frame` on the three frames (no
extensions) shows otherwise: only the Text frame is appended, both accepted
Continuation frames are handed to `Close(frame)` and dispatched as on_close
events (the Text/Binary branch at chain.py 89 omits `CONTINUATION`), no
Message is ever assembled, and `frame_setup` still holds the first frame
afterwards — it is never cleared. -/
theorem fragmented_text_message_mishandled :
    WSConstructor.recv_frame [] ⟨[], none⟩ c2f1 = some (⟨[c2f1], some c2f1⟩, []) ∧
    WSConstructor.recv_frame [] ⟨[c2f1], some c2f1⟩ c2f2
      = some (⟨[c2f1], some c2f2⟩, [WSEvent.closeEvt ⟨some [25701], none⟩]) ∧
    WSConstructor.recv_frame [] ⟨[c2f1], some c2f2⟩ c2f3
      = some (⟨[c2f1], some c2f3⟩, [WSEvent.closeEvt ⟨none, none⟩]) := by
  decide

/-- C4: the claim says a Close payload of more than 2 bytes yields the
status code from the first two bytes and a reason decoded as UTF-8 from the
REMAINING bytes.  On payload `b"ABCD"` the code instead decodes the reason
from the first two bytes again (`raw_data[:2]` at framing.py 165): the
reason comes out as "AB" (`[65, 66]`), not "CD" (`[67, 68]`), and `code`
holds the unpacked 1-tuple `(16706,)`. -/
theorem close_reason_decoded_from_wrong_bytes :
    Close.load [65, 66, 67, 68] = some ⟨some [16706], some [65, 66]⟩ ∧
    utf8Decode ([65, 66, 67, 68].drop 2) = some [67, 68] ∧
    ([65, 66] : List Nat) ≠ [67, 68] := by
  decide

/-- An extension claiming no reserved bit. -/
def extPlain : Extension := ⟨false, false, false⟩

/-- An extension claiming reserved bit 1. -/
def extR1 : Extension := ⟨true, false, false⟩

/-- A final Text frame with reserved bit 1 set. -/
def frameRsv1 : Frame := ⟨true, ⟨true, false, false⟩, some FrameOpcode.text, [], none⟩

/-- C5, counterexample: with the registered extensions
`[extPlain, extR1]`, reserved bit 1 IS claimed by a registered extension
(the second one), yet a frame with that bit set fails verification — the
`ChainMap` lookup only consults the first extension.  So "passes if and
only if at least one registered extension claims that bit" is false. -/
theorem rsv_any_extension_claim_refuted :
    verify [extPlain, extR1] none frameRsv1
      = (false, some "Used frame-rsv1 without proper extension") ∧
    [extPlain, extR1].any (·.RSV1) = true := by
  decide

/-- C5, amended: for a frame passing the sequencing and opcode checks (a
Text frame, say), verification succeeds iff every set reserved bit is
claimed by the FIRST registered extension (with no extensions, any set
reserved bit fails); and whenever verification fails, `recv_frame` leaves
the state alone and calls `client.close` with code 1002 and the violation
reason. -/
theorem rsv_first_extension_decides :
    ∀ (exts : List Extension) (lf : Option Frame) (f : Frame),
      f.opcode = some FrameOpcode.text →
      ((verify exts lf f).1 = true ↔
        ((f.rsvs.rsv1 = true → usedRsvGet exts (·.RSV1) = true) ∧
         (f.rsvs.rsv2 = true → usedRsvGet exts (·.RSV2) = true) ∧
         (f.rsvs.rsv3 = true → usedRsvGet exts (·.RSV3) = true))) ∧
      (∀ st : WSConstructor, st.last_frame = lf → (verify exts lf f).1 = false →
        WSConstructor.recv_frame exts st f
          = some (st, [WSEvent.closeCall 1002 (verify exts lf f).2])) := by
  intro exts lf f hop
  constructor
  · cases hr1 : f.rsvs.rsv1 <;> cases hr2 : f.rsvs.rsv2 <;> cases hr3 : f.rsvs.rsv3 <;>
      cases hu1 : usedRsvGet exts (·.RSV1) <;> cases hu2 : usedRsvGet exts (·.RSV2) <;>
      cases hu3 : usedRsvGet exts (·.RSV3) <;>
      cases lf <;>
      simp_all [verify, pyOpcodeContains]
  · intro st hst hfail
    rcases hv : verify exts lf f with ⟨b, r⟩
    rw [hv] at hfail
    simp at hfail
    subst hfail
    unfold WSConstructor.recv_frame
    rw [hst, hv]

/-- C5, witness for `rsv_first_extension_decides`: a Text frame with
reserved bit 1 set passes verification when the first (sole) registered
extension claims bit 1. -/
theorem rsv_first_extension_decides_witness :
    (verify [extR1] none frameRsv1).1 = true :=
  ((rsv_first_extension_decides [extR1] none frameRsv1 rfl).1).mpr (by decide)

/-- The decoded frame of C6's failing input: wire bytes `[0x83, 0x00]`, a
final frame whose 4-bit opcode field is 3 — none of the six known values —
with an empty payload.  `FrameOpcode.from_value 3` is Python `None`. -/
def c6Frame : Frame := ⟨true, rsvs0, none, [], none⟩

/-- C6: the claim says a frame with an unknown opcode is rejected by
verification and the connection is closed with code 1002.  Instead: the
check `frame.opcode not in FrameOpcode` never fires, because `from_value`
returned Python `None` and `None` is the value of the enum's `RESERVED`
member, so the frame PASSES verification, and `recv_frame`'s dispatch
chain drops it into the final `else` branch — it is handed to
`Close(frame)` and dispatched as an on_close event: a misclassified
dispatch, not a controlled 1002 shutdown (on CPython before 3.12 the same
line raises `TypeError`, a crash). -/
theorem unknown_opcode_not_rejected :
    Frame.load [131, 0] = some (c6Frame, []) ∧
    verify [] none c6Frame = (true, none) ∧
    WSConstructor.recv_frame [] ⟨[], none⟩ c6Frame
      = some (⟨[], some c6Frame⟩, [WSEvent.closeEvt ⟨none, none⟩]) := by
  refine ⟨by decide, by decide, by decide⟩

/-- C7: a Continuation frame arriving with no previously accepted frame, or
right after a Ping frame, fails verification and `recv_frame` responds by
calling `client.close` with code 1002 and the violation reason, leaving the
assembler state unchanged. -/
theorem continuation_sequencing_rejected :
    ∀ (exts : List Extension) (st : WSConstructor) (f : Frame),
      f.opcode = some FrameOpcode.continuation →
      (st.last_frame = none →
        WSConstructor.recv_frame exts st f
          = some (st, [WSEvent.closeCall 1002 (some "Sent continuation without initial frame.")])) ∧
      (∀ lf : Frame, st.last_frame = some lf → lf.opcode = some FrameOpcode.ping →
        WSConstructor.recv_frame exts st f
          = some (st, [WSEvent.closeCall 1002
              (some "Ping, Pong, or Close frames cannot be fragmented.")])) := by
  intro exts st f hop
  constructor
  · intro hlast
    unfold WSConstructor.recv_frame
    rw [hlast]
    simp [verify, hop]
  · intro lf hlast hping
    unfold WSConstructor.recv_frame
    rw [hlast]
    simp [verify, hop, hping]

/-- A lone final Continuation frame with empty payload. -/
def contFrame : Frame := ⟨true, rsvs0, some FrameOpcode.continuation, [], none⟩

/-- A final Ping frame with empty payload. -/
def pingFrame : Frame := ⟨true, rsvs0, some FrameOpcode.ping, [], none⟩

/-- C7, witness for `continuation_sequencing_rejected` at concrete inputs:
a Continuation as the very first frame, and a Continuation right after a
Ping. -/
theorem continuation_sequencing_rejected_witness :
    WSConstructor.recv_frame [] ⟨[], none⟩ contFrame
      = some (⟨[], none⟩, [WSEvent.closeCall 1002
          (some "Sent continuation without initial frame.")]) ∧
    WSConstructor.recv_frame [] ⟨[], some pingFrame⟩ contFrame
      = some (⟨[], some pingFrame⟩, [WSEvent.closeCall 1002
          (some "Ping, Pong, or Close frames cannot be fragmented.")]) :=
  ⟨(continuation_sequencing_rejected [] ⟨[], none⟩ contFrame rfl).1 rfl,
   (continuation_sequencing_rejected [] ⟨[], some pingFrame⟩ contFrame rfl).2
     pingFrame rfl rfl⟩

/-- C10: whenever verification rejects a frame, `recv_frame` returns after
the `client.close(1002, ...)` call with the assembler's own state exactly as
it was: the rejected frame is neither appended to `frame_setup` nor stored
in `last_frame`, so a later frame is validated against the last accepted
frame. -/
theorem rejected_frame_leaves_state_unchanged :
    ∀ (exts : List Extension) (st : WSConstructor) (f : Frame) (r : Option String),
      verify exts st.last_frame f = (false, r) →
      WSConstructor.recv_frame exts st f = some (st, [WSEvent.closeCall 1002 r]) := by
  intro exts st f r h
  unfold WSConstructor.recv_frame
  rw [h]

/-- C3: the claim says `close()` branches on the connection's current
status — Connected sends a Close frame and moves to Closing, Connecting or
Closing closes the transport, Closed raises `AlreadyClosed`.  The code
instead tests the truthiness of the enum constants themselves, so for EVERY
status at entry — `CLOSED` included — it takes the first branch: it sends a
Close control frame, sets the status to `CLOSING`, never closes the
transport and never raises `AlreadyClosed`. -/
theorem close_ignores_current_status :
    ∀ (s : ConnectionStatus) (code : Nat) (reason : Option String),
      Client.close s code reason
        = (ConnectionStatus.CLOSING, [ClientEvent.sendControlClose code reason], none) := by
  intro s code reason
  rfl

/-- C8: with the key fixed to the RFC 6455 sample nonce, the derived
expected accept value is `"s3pPLMBiTxaQ9kYGzzhZRbK+xOo="`; and for every
key and response-header mapping, `confirm` returns true iff the `Upgrade`
header is present and lowercases to `websocket`, the `Connection` header is
present and title-cases to `Upgrade`, and the `Sec-WebSocket-Accept` header
equals exactly the expected value — any absent or mismatched header gives
`false`, not an exception (the function is total). -/
theorem handshake_confirm_iff_headers_match :
    WebsocketUpgrade.expecting_key "dGhlIHNhbXBsZSBub25jZQ=="
      = "s3pPLMBiTxaQ9kYGzzhZRbK+xOo=" ∧
    ∀ (key : String) (headers : List (String × String)),
      (WebsocketUpgrade.confirm key headers = true ↔
        (∃ u, headerGet headers "Upgrade" = some u ∧ pyLower u = "websocket") ∧
        (∃ c, headerGet headers "Connection" = some c ∧ pyTitle c = "Upgrade") ∧
        headerGet headers "Sec-Websocket-Accept"
          = some (WebsocketUpgrade.expecting_key key)) := by
  constructor
  · decide
  · intro key headers
    unfold WebsocketUpgrade.confirm
    cases h1 : headerGet headers "Upgrade" <;>
      cases h2 : headerGet headers "Connection" <;>
        cases h3 : headerGet headers "Sec-Websocket-Accept" <;>
          simp [h1, h2, h3, bne_iff_ne, beq_iff_eq]

/-- C9: the claim says a failed handshake closes the transport and leaves
the status unaffected.  Evaluating `connect` on a 404 response shows the
code instead: the status is mutated to `CONNECTING` and then — through the
`close()` call — to `CLOSING`, a Close control frame (code 1000) is written
to the transport, `socket.close()` is never called, and `HandshakeFail` is
raised.  Only "does not transition to Connected" holds. -/
theorem connect_failure_mutates_status_and_skips_socket_close :
    Client.connect "dGhlIHNhbXBsZSBub25jZQ==" 404 []
      = (ConnectionStatus.CLOSING,
          [ClientEvent.sockConnect, ClientEvent.sendUpgrade,
            ClientEvent.sendControlClose 1000 none], some ClientError.handshakeFail) ∧
    ClientEvent.sockClose ∉ [ClientEvent.sockConnect, ClientEvent.sendUpgrade,
      ClientEvent.sendControlClose 1000 none] ∧
    ConnectionStatus.CLOSING ≠ ConnectionStatus.CLOSED := by
  refine ⟨by decide, by decide, by decide⟩

/-- C10, witness for `rejected_frame_leaves_state_unchanged`: a frame with
reserved bit 1 set and no registered extension is rejected and the state —
here one pending Text frame and that frame as `last_frame` — is returned
untouched. -/
theorem rejected_frame_leaves_state_unchanged_witness :
    WSConstructor.recv_frame [] ⟨[c2f1], some c2f1⟩ frameRsv1
      = some (⟨[c2f1], some c2f1⟩, [WSEvent.closeCall 1002
          (some "Used frame-rsv1 without proper extension")]) :=
  rejected_frame_leaves_state_unchanged [] ⟨[c2f1], some c2f1⟩ frameRsv1
    (some "Used frame-rsv1 without proper extension") (by decide)

end Zoey
